import Mathlib

set_option maxRecDepth 100000

/-!
Shallow embedding of the dblp-rs repository (src/main.rs, src/notes.rs,
src/dblp.rs) for checking its natural-language specification.

Text is modelled as Lean `String` (UTF-8 is abstracted to the character
sequence); the handful of Rust string primitives the code uses
(`split`, `trim`, `replace`, `contains`, `starts_with`) are re-implemented
structurally below so that all definitions evaluate inside the kernel.
The filesystem is made explicit: a note directory is a list of entries with
a read outcome, the bibliography store file is either absent or its content.
Remote HTTP fetches (`ureq::get(..).call()`), the biblatex parser/serializer
and `serde_yaml` are external collaborators and enter as function parameters
or oracle arguments, exactly at the call sites the source uses them.
-/

/-! ## Text primitives (models of the Rust `str` methods used by the code) -/

/-- Model of Rust `char::is_whitespace`, restricted to the ASCII whitespace
characters that actually occur in the texts handled by this program. -/
def is_ws (c : Char) : Bool :=
  c == ' ' || c == '\t' || c == '\n' || c == '\r'

/-- All suffixes of a list, longest first (used to express substring search). -/
def suffixes : List Char → List (List Char)
  | [] => [[]]
  | c :: rest => (c :: rest) :: suffixes rest

/-- Model of Rust `str::contains(&str)`: `needle` occurs as a contiguous
substring of `hay`. -/
def strContains (hay needle : String) : Bool :=
  (suffixes hay.data).any (fun t => needle.data.isPrefixOf t)

/-- Number of (possibly overlapping) occurrences of `needle` in `hay`:
the number of suffix positions at which `needle` begins. -/
def count_in_line (hay needle : String) : Nat :=
  ((suffixes hay.data).filter (fun t => needle.data.isPrefixOf t)).length

/-- Model of Rust `str::starts_with(&str)`. -/
def strStartsWith (s pat : String) : Bool :=
  pat.data.isPrefixOf s.data

/-- Model of Rust `str::trim` (ASCII whitespace). -/
def trim_chars (l : List Char) : List Char :=
  ((l.dropWhile is_ws).reverse.dropWhile is_ws).reverse

/-- Model of Rust `str::trim`. -/
def strTrim (s : String) : String :=
  String.mk (trim_chars s.data)

/-- Splitter state step: accumulate characters into the current chunk and
close the chunk whenever it ends with the (non-empty) delimiter.  This scans
left to right and matches the leftmost, non-overlapping occurrences of the
delimiter, which is the semantics of Rust `str::split(&str)`. -/
def split_on_step (delim : List Char) (acc : List (List Char) × List Char)
    (c : Char) : List (List Char) × List Char :=
  let cur := acc.2 ++ [c]
  if delim.isSuffixOf cur then
    (acc.1 ++ [cur.take (cur.length - delim.length)], [])
  else
    (acc.1, cur)

/-- Model of Rust `str::split(&str)` for a non-empty delimiter, on character
lists. Always yields at least one chunk. -/
def split_on_chars (delim s : List Char) : List (List Char) :=
  if delim = [] then [s]
  else
    let r := s.foldl (split_on_step delim) ([], [])
    r.1 ++ [r.2]

/-- Model of Rust `str::split(&str)` for a non-empty delimiter. -/
def strSplitOn (delim s : String) : List String :=
  (split_on_chars delim.data s.data).map String.mk

/-- Model of Rust `[&str]::join` / the gluing step of `str::replace`. -/
def strIntercalate (sep : String) (xs : List String) : String :=
  String.mk (List.intercalate sep.data (xs.map String.data))

/-- Model of Rust `str::replace(pat, rep)`: replace every non-overlapping
occurrence of `pat` (leftmost first) by `rep`. -/
def strReplace (s pat rep : String) : String :=
  strIntercalate rep (strSplitOn pat s)

/-! ## Header Codec and Note Index (src/notes.rs) -/

/-- `ShortMetadata` from src/notes.rs lines 31-35: the decoded note header. -/
structure ShortMetadata where
  title : String
  key : String
deriving DecidableEq

/-- `get_metadata_str` from src/notes.rs lines 47-59: split the content on
the `---` delimiter; the text before the first delimiter must be
empty/whitespace-only, a third chunk (hence a second delimiter occurrence)
must exist, and the text between the first two delimiters is returned. -/
def get_metadata_str (content : String) : Option String :=
  let chunks := strSplitOn "---" content
  match chunks[0]? with
  | none => none
  | some before =>
    if strTrim before ≠ "" then none
    else
      match chunks[2]? with
      | none => none
      | some _ => chunks[1]?

/-- First value bound to `name` in an association list of YAML pairs. -/
def lookup_pair : List (String × String) → String → Option String
  | [], _ => none
  | (n, v) :: rest, name => if n == name then some v else lookup_pair rest name

/-- Modelled from the spec: the external `serde_yaml` deserializer, restricted
to the flat `name: value` line blocks this program writes ("The body between
delimiters is parsed as a structured key/value block; malformed structured
content is surfaced as a decode failure").  Non-blank lines must each carry a
`:`; a line without one is malformed. -/
def parse_yaml_pairs (s : String) : Option (List (String × String)) :=
  let ls := (strSplitOn "\n" s).filter (fun l => strTrim l ≠ "")
  ls.mapM (fun l =>
    match strSplitOn ":" l with
    | [] => none
    | [_] => none
    | name :: rest => some (strTrim name, strTrim (strIntercalate ":" rest)))

/-- `impl TryFrom<&str> for ShortMetadata` from src/notes.rs lines 37-44:
absence of the header block is the "missing metadata header" error, a present
but malformed block is a deserialization error. -/
def short_metadata_try_from (value : String) : Except String ShortMetadata :=
  match get_metadata_str value with
  | none => .error "missing metadata header"
  | some meta_str =>
    match parse_yaml_pairs meta_str with
    | none => .error "yaml deserialization error"
    | some pairs =>
      match lookup_pair pairs "title", lookup_pair pairs "key" with
      | some t, some k => .ok ⟨t, k⟩
      | _, _ => .error "yaml deserialization error"

/-- Why reading a directory entry's bytes as text can fail: the file cannot
be opened (`File::open(..).ok()?`) or its content is not valid UTF-8
(`read_to_string(..).ok()?`). -/
inductive ReadErr where
  | openFailed
  | notUtf8
deriving DecidableEq

deriving instance DecidableEq for Except

/-- One entry met by the `WalkDir` traversal: its path, whether it is a
regular file, and the outcome of reading its content as text. -/
structure DirEntry where
  path : String
  is_file : Bool
  read : Except ReadErr String
deriving DecidableEq

/-- The per-entry body of the `filter_map` in `files_with_metadata`
(src/notes.rs lines 69-79): keep a regular file whose content can be read
as text and decodes to a header; every failure yields `none`. -/
def note_of_entry (e : DirEntry) : Option (String × ShortMetadata) :=
  if e.is_file then
    match e.read with
    | .error _ => none
    | .ok content =>
      match short_metadata_try_from content with
      | .error _ => none
      | .ok meta => some (e.path, meta)
  else none

/-- `files_with_metadata` from src/notes.rs lines 61-80: walk the directory
and yield the (path, header) pairs of the decodable regular files; every
failure is skipped by `filter_map`, never surfaced (the return type has no
error case). -/
def files_with_metadata (dir : List DirEntry) : List (String × ShortMetadata) :=
  dir.filterMap note_of_entry

/-- Model of Rust `Path::with_extension(ext)` on a single path component:
replace the portion after the final `.` of the name (if the name has one and
does not consist of a single leading-dot component) by `ext`. -/
def with_extension (name ext : String) : String :=
  let ps := strSplitOn "." name
  if ps.length ≤ 1 then name ++ "." ++ ext
  else if strStartsWith name "." ∧ ps.length = 2 then name ++ "." ++ ext
  else (strIntercalate "." ps.dropLast) ++ "." ++ ext

/-- The path derived for a new note file by src/notes.rs lines 19-20:
`dir.join(title.replace(':', "-")).with_extension("md")` (the title is
assumed to be a single path component). -/
def note_path (dir_root title : String) : String :=
  dir_root ++ "/" ++ with_extension (strReplace title ":" "-") "md"

/-- The text written to a fresh note file by src/notes.rs line 27:
`writeln!(f, "---\nkey: {}\n{}---", bib_key, yaml_str)`. -/
def note_header (bib_key yaml_str : String) : String :=
  "---\nkey: " ++ bib_key ++ "\n" ++ yaml_str ++ "---\n"

/-- Model of `File::create(&p)` followed by writing `content`: the file at
`p` is created, or truncated and overwritten when it already exists. -/
def write_file (dir : List DirEntry) (p content : String) : List DirEntry :=
  ⟨p, true, .ok content⟩ :: dir.filter (fun e => !(e.path == p))

/-- How `create_notes_file` can fail: a note with the same key already
exists (the error names its path, src/notes.rs line 17), or the remote
bibtex fetch failed (the `?` on line 21). -/
inductive CreateErr where
  | duplicate (path : String)
  | fetchFailed (msg : String)
deriving DecidableEq

/-- `create_notes_file` from src/notes.rs lines 12-29.  `fetch_yaml` stands
for the external collaborators on lines 21-22 — `dblp::fetch_bibtex`
(declared in this repository but outside the provided sources; the spec
treats it as "an external collaborator call keyed by LocalKey") composed
with `serde_yaml::to_string` — returning the serialized entry text.
Returns the outcome together with the resulting directory contents. -/
def create_notes_file (dir_root : String) (dir : List DirEntry)
    (fetch_yaml : String → Except String String) (bib_key title : String) :
    Except CreateErr String × List DirEntry :=
  match (files_with_metadata dir).find? (fun pm => pm.2.key == bib_key) with
  | some existing => (.error (.duplicate existing.1), dir)
  | none =>
    let p := note_path dir_root title
    match fetch_yaml bib_key with
    | .error e => (.error (.fetchFailed e), dir)
    | .ok yaml_str => (.ok p, write_file dir p (note_header bib_key yaml_str))

/-! ## Record Model and Store Membership Checker (src/main.rs, src/dblp.rs) -/

/-- `Format` from src/main.rs lines 171-175. -/
inductive Format where
  | condensed
  | standard
deriving DecidableEq

/-- `Format::get_param` from src/main.rs lines 177-184. -/
def Format.get_param : Format → String
  | .standard => "?param=1"
  | .condensed => "?param=0"

/-- `DblpHitInfo` from src/main.rs lines 37-45 (the `CatalogRecord` of the
spec); `authors` is flattened to the display-name list `as_vec` yields. -/
structure DblpHitInfo where
  key : String
  authors : List String
  title : String
  venue : String
  year : String
  url : String
deriving DecidableEq

/-- `DblpHitInfo::bib_url` from src/main.rs lines 48-53. -/
def DblpHitInfo.bib_url (i : DblpHitInfo) : Format → String
  | .standard => i.url ++ ".bib?param=1"
  | .condensed => i.url ++ ".bib?param=0"

/-- `DblpHitInfo::get_key` from src/main.rs lines 55-57 (the `LocalKey` of
the spec: fixed prefix `DBLP:` plus the catalog key). -/
def DblpHitInfo.get_key (i : DblpHitInfo) : String :=
  "DBLP:" ++ i.key

/-- The line loop of `is_present` (src/main.rs lines 280-285): scan the
lines in order and return `true` at the first line containing the key. -/
def line_has_key : List String → String → Bool
  | [], _ => false
  | l :: rest, k => if strContains l k then true else line_has_key rest k

/-- `is_present` from src/main.rs lines 275-288.  The store file is
modelled as `none` when `path.is_file()` is false (missing file) and as
its list of lines otherwise. -/
def is_present (store : Option (List String)) (item : DblpHitInfo) : Bool :=
  match store with
  | none => false
  | some ls => line_has_key ls item.get_key

/-- Total occurrence count of `k` in a store modelled as a list of lines. -/
def occurrences (ls : List String) (k : String) : Nat :=
  (ls.map (fun l => count_in_line l k)).sum

/-! ## Append Pipeline (src/main.rs lines 206-243, `Actions::Add`) -/

/-- Result of one run of the append step: the store file afterwards, and
whether a remote fetch and a write were performed. -/
structure AppendOutcome where
  store : Option (List String)
  fetched : Bool
  wrote : Bool
deriving DecidableEq

/-- The search step of `Actions::Add` fixes `let bibformat =
Format::Condensed;` (src/main.rs line 212). -/
def add_search_format : Format := Format.condensed

/-- The store-mutating tail of `Actions::Add` (src/main.rs lines 232-241):
if the selection is already present skip fetch and write; otherwise fetch
`selection.bib_url(Format::Standard)` (any transport error is fatal) and
append the fetched text at the end of the store file, creating it when
absent (`OpenOptions::new().create(true).append(true)`).  `fetch` is the
`ureq` collaborator returning the fetched text as lines. -/
def append_pipeline (fetch : String → Except String (List String))
    (store : Option (List String)) (selection : DblpHitInfo) :
    Except String AppendOutcome :=
  if is_present store selection then .ok ⟨store, false, false⟩
  else
    match fetch (selection.bib_url Format.standard) with
    | .error e => .error e
    | .ok bib_lines => .ok ⟨some (store.getD [] ++ bib_lines), true, true⟩

/-! ## Conversion Pipeline (src/main.rs lines 244-269, `Actions::Convert`) -/

/-- One parsed store entry (`biblatex::Entry`): its key and the outcome of
the external serializer `Entry::to_bibtex_string` (src/main.rs line 266). -/
structure BibEntry where
  key : String
  to_bibtex : Except String String
deriving DecidableEq

/-- The re-fetch URL built on src/main.rs lines 261-262:
`format!("https://dblp.uni-trier.de/rec/{}.bib{}", key.replace("DBLP:", ""),
to.get_param())`. -/
def convert_fetch_url (key : String) (fmt : Format) : String :=
  "https://dblp.uni-trier.de/rec/" ++ strReplace key "DBLP:" "" ++ ".bib"
    ++ fmt.get_param

/-- The entry loop of `Actions::Convert` (src/main.rs lines 259-268),
returning the text written to the recreated store file and the error that
aborted the loop, if any.  A remote-backed entry (key starting with
`DBLP`) is re-fetched; the `?` on line 263 makes a fetch failure abort the
loop, leaving only the previously written text in the file.  Each written
record is `writeln!(f, "{}\n", ..)`, i.e. followed by a blank line. -/
def convert_entries (fetch : String → Except String String) (fmt : Format) :
    List BibEntry → String × Option String
  | [] => ("", none)
  | e :: rest =>
    if strStartsWith e.key "DBLP" then
      match fetch (convert_fetch_url e.key fmt) with
      | .error err => ("", some err)
      | .ok bib =>
        let r := convert_entries fetch fmt rest
        (bib ++ "\n\n" ++ r.1, r.2)
    else
      match e.to_bibtex with
      | .error err => ("", some err)
      | .ok s =>
        let r := convert_entries fetch fmt rest
        (s ++ "\n\n" ++ r.1, r.2)

/-- `Cli::get_backup_bib_path` from src/main.rs lines 159-162:
`orig.with_extension("bib.bak")` on the store path. -/
def get_backup_bib_path (orig : String) : String :=
  with_extension orig "bib.bak"

/-- Observable outcome of one `Actions::Convert` run on a store whose
pre-run content is `src`: the backup file content, the store file content
when the run ends, and the failure that aborted it, if any. -/
structure ConvertOutcome where
  backup : String
  store : String
  failure : Option String
deriving DecidableEq

/-- `Actions::Convert` from src/main.rs lines 244-269, as a function of the
pre-run store text `src`.  In source order: the backup file receives
`writeln!(f, "{}", src)`, i.e. `src` plus a trailing newline (lines
250-253); the store file is truncated/recreated by `File::create`
(line 256) *before* `Bibliography::parse(&src).unwrap()` runs (line 258),
so when the external parser (oracle `parse`) fails the run dies with the
store already empty; otherwise the entry loop writes into the recreated
file. -/
def convert_main (parse : String → Option (List BibEntry))
    (fetch : String → Except String String) (fmt : Format) (src : String) :
    ConvertOutcome :=
  let backup := src ++ "\n"
  match parse src with
  | none => ⟨backup, "", some "parse error"⟩
  | some entries =>
    let r := convert_entries fetch fmt entries
    ⟨backup, r.1, r.2⟩

/-- Content of the file at path `p` in a directory, when a regular readable
file is there (first entry with that path). -/
def read_at (dir : List DirEntry) (p : String) : Option String :=
  match dir.find? (fun e => e.path == p) with
  | some e => e.read.toOption
  | none => none

/-! ## Concrete instances used by the counterexamples and witnesses -/

/-- Remote-backed store entry whose re-fetch will succeed ("FA"). -/
def ec1 : BibEntry := ⟨"DBLP:conf/a/x", .ok "local1"⟩

/-- Remote-backed store entry whose re-fetch will fail. -/
def ec2 : BibEntry := ⟨"DBLP:conf/b/y", .ok "local2"⟩

/-- Remote-backed store entry after the failing one. -/
def ec3 : BibEntry := ⟨"DBLP:conf/c/z", .ok "local3"⟩

/-- Fetch oracle that fails exactly on `ec2`'s record URL. -/
def fetchC1 : String → Except String String := fun u =>
  if u = convert_fetch_url "DBLP:conf/b/y" Format.condensed then
    .error "network down"
  else if u = convert_fetch_url "DBLP:conf/a/x" Format.condensed then
    .ok "FA"
  else
    .ok "FC"

/-- A single remote-backed entry for the witness of the amended C1. -/
def ew1 : BibEntry := ⟨"DBLP:journals/w/q", .ok "localw"⟩

/-- Fetch oracle that always fails, for the witness of the amended C1. -/
def fetchW1 : String → Except String String := fun _ => .error "net down"

/-- Record whose LocalKey is `DBLP:conf/k/p`. -/
def selC4 : DblpHitInfo :=
  ⟨"conf/k/p", [], "T", "V", "2020", "https://dblp.org/rec/conf/k/p"⟩

/-- A store that already contains `selC4`'s LocalKey on two lines. -/
def storeC4 : List String := ["a DBLP:conf/k/p b", "c DBLP:conf/k/p d"]

/-- Fetch oracle returning a citation line that carries `selC4`'s LocalKey. -/
def fetchC4 : String → Except String (List String) :=
  fun _ => .ok ["@a\x7bDBLP:conf/k/p,"]

/-- Record whose LocalKey is `DBLP:w`, for the witness of the amended C4. -/
def selW4 : DblpHitInfo := ⟨"w", [], "t", "v", "y", "https://dblp.org/rec/w"⟩

/-- Fetch oracle whose citation text carries `DBLP:w` exactly once. -/
def fetchW4 : String → Except String (List String) :=
  fun _ => .ok ["@a\x7bDBLP:w,"]

/-- A directory holding one note file whose header key is `k1`. -/
def dirC5 : List DirEntry :=
  [⟨"root/n.md", true, .ok "---\nkey: k1\ntitle: t\n---\nbody"⟩]

/-- Record whose LocalKey is `DBLP:k`, for the witness of C6. -/
def selC6 : DblpHitInfo := ⟨"k", [], "", "", "", "https://dblp.org/rec/k"⟩

/-- Record used by the witness of C8. -/
def selC8 : DblpHitInfo := ⟨"x", [], "", "", "", "https://dblp.org/rec/x"⟩

/-- A directory as left by a first `create_notes_file` call with key `k1`
and title `a:b` (file name derived as `a-b.md`). -/
def dirC10 : List DirEntry :=
  [⟨"notes/a-b.md", true, .ok "---\nkey: k1\ntitle: x\n---\n"⟩]

/-! ## Helper lemmas -/

/-- A list has an element satisfying `p` exactly when the `p`-filtered list
is non-empty. -/
theorem any_eq_true_iff_filter_length_ne_zero {α : Type} (p : α → Bool) :
    ∀ xs : List α, xs.any p = true ↔ (xs.filter p).length ≠ 0 := by
  intro xs
  induction xs with
  | nil => simp
  | cons x rest ih =>
    cases hp : p x
    · simp [List.any_cons, List.filter_cons, hp, ih]
    · simp [List.any_cons, List.filter_cons, hp]

/-- A line contains the key exactly when its occurrence count is positive. -/
theorem strContains_eq_true_iff (l k : String) :
    strContains l k = true ↔ count_in_line l k ≠ 0 :=
  any_eq_true_iff_filter_length_ne_zero _ _

/-- The `is_present` line scan succeeds exactly when some line contains the
key as a substring. -/
theorem line_has_key_iff (ls : List String) (k : String) :
    line_has_key ls k = true ↔ ∃ l ∈ ls, strContains l k = true := by
  induction ls with
  | nil => simp [line_has_key]
  | cons l rest ih =>
    cases hc : strContains l k
    · simp [line_has_key, hc, ih]
    · simp [line_has_key, hc]

/-- Occurrence count of a key in a store, line by line. -/
theorem occurrences_cons (l : String) (ls : List String) (k : String) :
    occurrences (l :: ls) k = count_in_line l k + occurrences ls k := by
  simp [occurrences]

/-- Occurrence counts add up over store concatenation. -/
theorem occurrences_append (a b : List String) (k : String) :
    occurrences (a ++ b) k = occurrences a k + occurrences b k := by
  simp [occurrences]

/-- A store with no occurrence of the key fails the membership line scan. -/
theorem line_has_key_eq_false (ls : List String) (k : String)
    (h : occurrences ls k = 0) : line_has_key ls k = false := by
  induction ls with
  | nil => rfl
  | cons l rest ih =>
    rw [occurrences_cons] at h
    have h1 : count_in_line l k = 0 := by omega
    have h2 : occurrences rest k = 0 := by omega
    have hc : strContains l k = false := by
      cases hcc : strContains l k
      · rfl
      · exact absurd h1 ((strContains_eq_true_iff l k).mp hcc)
    simp [line_has_key, hc, ih h2]

/-- A store with an occurrence of the key passes the membership line scan. -/
theorem line_has_key_eq_true (ls : List String) (k : String)
    (h : occurrences ls k ≠ 0) : line_has_key ls k = true := by
  induction ls with
  | nil => simp [occurrences] at h
  | cons l rest ih =>
    rw [occurrences_cons] at h
    cases hc : strContains l k
    · have h1 : count_in_line l k = 0 := by
        by_contra hne
        have := (strContains_eq_true_iff l k).mpr hne
        rw [hc] at this
        exact absurd this (by simp)
    
      have h2 : occurrences rest k ≠ 0 := by omega
      simp [line_has_key, hc, ih h2]
    · simp [line_has_key, hc]

/-- Writing a file makes its content readable at its path (the previous
content at that path, if any, is gone). -/
theorem read_at_write_file (dir : List DirEntry) (p c : String) :
    read_at (write_file dir p c) p = some c := by
  simp [read_at, write_file, List.find?_cons_of_pos, Except.toOption]

/-! ## Claim theorems -/

/-- C1 counterexample: converting a store of three remote-backed entries
whose second re-fetch fails does *not* fall back to the entry's local text
and continue — the run aborts with the fetch error, the rewritten store
holds only the first entry's fetched text, and the second and third entries
are dropped from it (neither `local2` nor any text of `ec3` is written). -/
theorem C1_counterexample :
    convert_entries fetchC1 Format.condensed [ec1, ec2, ec3]
      = ("FA\n\n", some "network down") ∧
    strContains "FA\n\n" "local2" = false ∧
    strContains "FA\n\n" "local3" = false ∧
    strContains "FA\n\n" "FC" = false :=
  ⟨rfl, rfl, rfl, rfl⟩

/-- C1 (amended): in the Conversion Pipeline a remote-backed entry whose
remote re-fetch fails aborts the conversion with that fetch's error:
every entry before the failing one is written (its fetched text), the
failing entry and all subsequent entries are not written to the rewritten
store, no fallback to the entry's serialized local text happens and no
per-key report is produced. -/
theorem C1_amended (fetch : String → Except String String) (fmt : Format)
    (out1 : String) (l1 l2 : List BibEntry) (e : BibEntry) (err : String) :
    convert_entries fetch fmt l1 = (out1, none) →
    strStartsWith e.key "DBLP" = true →
    fetch (convert_fetch_url e.key fmt) = .error err →
    convert_entries fetch fmt (l1 ++ e :: l2) = (out1, some err) := by
  intro h1 he hf
  induction l1 generalizing out1 with
  | nil =>
    simp only [convert_entries, Prod.mk.injEq] at h1
    rw [List.nil_append]
    simp [convert_entries, he, hf, h1.1.symm]
  | cons a rest ih =>
    rw [List.cons_append]
    cases ha : strStartsWith a.key "DBLP"
    · cases hta : a.to_bibtex with
      | error er => simp [convert_entries, ha, hta] at h1
      | ok s =>
        rcases hrr : convert_entries fetch fmt rest with ⟨x, y⟩
        simp only [convert_entries, ha, hta, hrr, Bool.false_eq_true,
          if_false, Prod.mk.injEq] at h1
        obtain ⟨hx, hy⟩ := h1
        subst hy
        have hstep := ih x (by rw [hrr])
        simp [convert_entries, ha, hta, hstep, hx]
    · cases hfa : fetch (convert_fetch_url a.key fmt) with
      | error er => simp [convert_entries, ha, hfa] at h1
      | ok bib =>
        rcases hrr : convert_entries fetch fmt rest with ⟨x, y⟩
        simp only [convert_entries, ha, hfa, hrr, if_true,
          Prod.mk.injEq] at h1
        obtain ⟨hx, hy⟩ := h1
        subst hy
        have hstep := ih x (by rw [hrr])
        simp [convert_entries, ha, hfa, hstep, hx]

/-- C1 witness: a single remote-backed entry whose re-fetch fails yields an
empty rewritten store and the fetch error. -/
theorem C1_amended_witness :
    convert_entries fetchW1 Format.standard [ew1] = ("", some "net down") :=
  C1_amended fetchW1 Format.standard "" [] [] ew1 "net down" rfl rfl rfl

/-- C2 counterexample: the backup written for a store whose content is
`@x{a,}` is `@x{a,}\n`, not a byte-for-byte copy of the pre-run content. -/
theorem C2_counterexample :
    (convert_main (fun _ => some []) (fun _ => Except.error "e")
      Format.standard "@x{a,}").backup ≠ "@x{a,}" := by
  decide

/-- C2 (amended): before any mutation of the store the Conversion Pipeline
writes the store's pre-run content followed by one extra trailing newline
(`writeln!`) to the backup path; whether the run succeeds, aborts on a
per-entry fetch, or dies on a parse failure, the backup equals the pre-run
store content plus a single appended newline — recoverable, but not
byte-identical. -/
theorem C2_amended (parse : String → Option (List BibEntry))
    (fetch : String → Except String String) (fmt : Format) (src : String) :
    (convert_main parse fetch fmt src).backup = src ++ "\n" := by
  cases h : parse src <;> simp [convert_main, h]

/-- C3 counterexample: a store whose text `@@@` fails to parse *is*
truncated by the conversion — after the run the store file is empty while
the pre-run content was not. -/
theorem C3_counterexample :
    (convert_main (fun _ => none) (fun _ => Except.error "e")
      Format.condensed "@@@").store = "" ∧ ("@@@" : String) ≠ "" := by
  exact ⟨rfl, by decide⟩

/-- C3 (amended): the Conversion Pipeline truncates/recreates the store
file *before* parsing the store text; a parsing failure is still fatal, but
it leaves the store file empty — the pre-run text survives only in the
just-written backup. -/
theorem C3_amended (parse : String → Option (List BibEntry))
    (fetch : String → Except String String) (fmt : Format) (src : String) :
    parse src = none →
    convert_main parse fetch fmt src = ⟨src ++ "\n", "", some "parse error"⟩ := by
  intro h
  simp [convert_main, h]

/-- C3 witness: the amended statement at the unparseable store text `x`. -/
theorem C3_amended_witness :
    convert_main (fun _ => none) (fun _ => Except.error "e") Format.standard "x"
      = ⟨"x" ++ "\n", "", some "parse error"⟩ :=
  C3_amended (fun _ => none) (fun _ => Except.error "e") Format.standard "x" rfl

/-- C4 counterexample: against a store that already holds `selC4`'s
LocalKey on two lines, a run of the Append Pipeline is a no-op (membership
check true, no fetch, no write); running it twice therefore leaves the
store unchanged with *two* occurrences of the LocalKey, refuting "for every
store ... exactly one occurrence". -/
theorem C4_counterexample :
    append_pipeline fetchC4 (some storeC4) selC4 = .ok ⟨some storeC4, false, false⟩ ∧
    occurrences storeC4 selC4.get_key = 2 :=
  ⟨rfl, rfl⟩

/-- C4 (amended): assuming the fetched citation text carries the record's
LocalKey exactly once, running the Append Pipeline from a store with no
occurrence of the LocalKey appends the fetched text at the end, leaving
exactly one occurrence, and a second run finds the key present, so it
performs no remote fetch and no write and leaves the store unchanged
(append twice equals append once); a store that already contains the key
is never written to, so its occurrence count, whatever it is, persists. -/
theorem C4_amended (fetch : String → Except String (List String))
    (store0 bib_lines : List String) (sel : DblpHitInfo) :
    occurrences store0 sel.get_key = 0 →
    fetch (sel.bib_url Format.standard) = .ok bib_lines →
    occurrences bib_lines sel.get_key = 1 →
    append_pipeline fetch (some store0) sel
      = .ok ⟨some (store0 ++ bib_lines), true, true⟩ ∧
    occurrences (store0 ++ bib_lines) sel.get_key = 1 ∧
    append_pipeline fetch (some (store0 ++ bib_lines)) sel
      = .ok ⟨some (store0 ++ bib_lines), false, false⟩ := by
  intro h0 hf h1
  have hocc : occurrences (store0 ++ bib_lines) sel.get_key = 1 := by
    rw [occurrences_append, h0, h1]
  have hp0 : is_present (some store0) sel = false := by
    simp [is_present, line_has_key_eq_false store0 sel.get_key h0]
  have hp1 : is_present (some (store0 ++ bib_lines)) sel = true := by
    simp [is_present]
    exact line_has_key_eq_true _ _ (by omega)
  refine ⟨?_, hocc, ?_⟩
  · simp [append_pipeline, hp0, hf]
  · simp [append_pipeline, hp1]

/-- C4 witness: the amended statement at an empty store and a fetched
citation line carrying `DBLP:w` exactly once. -/
theorem C4_amended_witness :
    append_pipeline fetchW4 (some []) selW4
      = .ok ⟨some ([] ++ ["@a\x7bDBLP:w,"]), true, true⟩ ∧
    occurrences ([] ++ ["@a\x7bDBLP:w,"]) selW4.get_key = 1 ∧
    append_pipeline fetchW4 (some ([] ++ ["@a\x7bDBLP:w,"])) selW4
      = .ok ⟨some ([] ++ ["@a\x7bDBLP:w,"]), false, false⟩ :=
  C4_amended fetchW4 [] ["@a\x7bDBLP:w,"] selW4 rfl rfl rfl

/-- C5: when the index of the directory already yields a header carrying
the requested key, `create_notes_file` fails with a duplicate error naming
the conflicting path (the first indexed file with that key) and returns the
directory contents unchanged — no file is created. -/
theorem C5_confirmed (root : String) (dir : List DirEntry)
    (fetch_yaml : String → Except String String) (bib_key title p : String)
    (m : ShortMetadata) :
    (files_with_metadata dir).find? (fun pm => pm.2.key == bib_key) = some (p, m) →
    create_notes_file root dir fetch_yaml bib_key title
      = (.error (.duplicate p), dir) := by
  intro h
  simp [create_notes_file, h]

/-- C5 witness: a directory holding one note whose header key is `k1`
rejects a second note with key `k1`, naming the existing file's path. -/
theorem C5_confirmed_witness :
    create_notes_file "root" dirC5 (fun _ => Except.ok "title: t\n") "k1" "ttl"
      = (.error (.duplicate "root/n.md"), dirC5) :=
  C5_confirmed "root" dirC5 (fun _ => Except.ok "title: t\n") "k1" "ttl"
    "root/n.md" ⟨"t", "k1"⟩ rfl

/-- C6: the Store Membership Checker returns `false` (not an error) when
the store file does not exist, and on an existing store it returns `true`
exactly when some line contains the record's LocalKey as a substring (the
line scan stops at the first such line). -/
theorem C6_confirmed (item : DblpHitInfo) :
    is_present none item = false ∧
    ∀ ls : List String,
      (is_present (some ls) item = true ↔
        ∃ l ∈ ls, strContains l item.get_key = true) := by
  refine ⟨rfl, fun ls => ?_⟩
  simpa [is_present] using line_has_key_iff ls item.get_key

/-- C6 witness: a store whose single line carries `DBLP:k` is reported as
containing `selC6`. -/
theorem C6_confirmed_witness :
    is_present (some ["a DBLP:k b"]) selC6 = true :=
  ((C6_confirmed selC6).2 ["a DBLP:k b"]).mpr ⟨"a DBLP:k b", by simp, rfl⟩

/-- C7: the three decode edge cases — text with no delimiter decodes as
absent; `---\nkey: k\ntitle: t\n---\nbody` decodes as a present header with
key `k` and title `t`; text with non-whitespace content before the first
delimiter decodes as absent — and, in general, a header can only be
present when the text before the first delimiter is empty or
whitespace-only (i.e. the text begins with a delimiter up to leading
whitespace) and a second delimiter occurrence exists (the split has at
least three chunks). -/
theorem C7_confirmed :
    get_metadata_str "no header text" = none ∧
    short_metadata_try_from "---\nkey: k\ntitle: t\n---\nbody" = .ok ⟨"t", "k"⟩ ∧
    get_metadata_str "garbage---\nkey: k\n---\n" = none ∧
    ∀ s m, get_metadata_str s = some m →
      strTrim ((strSplitOn "---" s).headD "") = "" ∧
      3 ≤ (strSplitOn "---" s).length := by
  refine ⟨rfl, rfl, by decide, ?_⟩
  intro s m h
  simp only [get_metadata_str] at h
  rcases hl : strSplitOn "---" s with _ | ⟨b, rest⟩
  · rw [hl] at h; simp at h
  · rcases rest with _ | ⟨c1, rest2⟩
    · rw [hl] at h
      by_cases ht : strTrim b = "" <;> simp [ht] at h
    · rcases rest2 with _ | ⟨c2, rest3⟩
      · rw [hl] at h
        by_cases ht : strTrim b = "" <;> simp [ht] at h
      · rw [hl] at h
        by_cases ht : strTrim b = ""
        · refine ⟨by simpa using ht, ?_⟩
          simp only [List.length_cons]
          omega
        · simp [ht] at h

/-- C7 witness: the general clause applied to the concrete decodable text
`---\nkey: q\n---\nrest`. -/
theorem C7_confirmed_witness :
    strTrim ((strSplitOn "---" "---\nkey: q\n---\nrest").headD "") = "" ∧
    3 ≤ (strSplitOn "---" "---\nkey: q\n---\nrest").length :=
  C7_confirmed.2.2.2 "---\nkey: q\n---\nrest" "\nkey: q\n" rfl

/-- C8: when the selected record is not yet present, the Append Pipeline
fetches the citation text at `bib_url(record, Standard)` — the search
itself always uses the condensed format — consults the fetch collaborator
at no other URL, and appends the fetched text at the end of the store
file, creating the file when it is absent (`store = none`). -/
theorem C8_confirmed (fetch : String → Except String (List String))
    (store : Option (List String)) (sel : DblpHitInfo) (bib_lines : List String) :
    is_present store sel = false →
    fetch (sel.bib_url Format.standard) = .ok bib_lines →
    append_pipeline fetch store sel
      = .ok ⟨some (store.getD [] ++ bib_lines), true, true⟩ ∧
    (∀ g : String → Except String (List String),
      g (sel.bib_url Format.standard) = fetch (sel.bib_url Format.standard) →
      append_pipeline g store sel = append_pipeline fetch store sel) ∧
    sel.bib_url Format.standard = sel.url ++ ".bib?param=1" ∧
    add_search_format = Format.condensed := by
  intro hp hf
  refine ⟨?_, ?_, rfl, rfl⟩
  · simp [append_pipeline, hp, hf]
  · intro g hg
    simp [append_pipeline, hp, hg]

/-- C8 witness: from a missing store file, the fetched line group becomes
the whole store content. -/
theorem C8_confirmed_witness :
    append_pipeline (fun _ => Except.ok ["B"]) none selC8
      = .ok ⟨some ((none : Option (List String)).getD [] ++ ["B"]), true, true⟩ :=
  (C8_confirmed (fun _ => Except.ok ["B"]) none selC8 ["B"] rfl rfl).1

/-- C9: the Note Index yields exactly what it yields on the directory with
every unreadable entry (open failure or non-UTF-8 content) and every
non-file removed: such entries are silently absent from the produced
sequence, and the index's type surfaces no error at all. -/
theorem C9_confirmed (dir : List DirEntry) :
    files_with_metadata dir
      = files_with_metadata
          (dir.filter (fun e => e.is_file && e.read.toOption.isSome)) := by
  induction dir with
  | nil => rfl
  | cons e rest ih =>
    rcases e with ⟨p, isf, rd⟩
    simp only [files_with_metadata, Except.toOption] at ih ⊢
    cases isf
    · simp [List.filterMap_cons, List.filter_cons, note_of_entry, ih]
    · cases rd with
      | error r =>
        simp [List.filterMap_cons, List.filter_cons, note_of_entry, ih]
      | ok c =>
        cases hm : short_metadata_try_from c <;>
          simp [List.filterMap_cons, List.filter_cons, note_of_entry, hm, ih]

/-- C10: when the duplicate-key check passes and the fetch succeeds,
`create_notes_file` writes the header text to the path derived from the
title (colons replaced by dashes, extension set to `md`) via
`File::create`, truncating any pre-existing file at that path: afterwards
the file at the derived path holds the new header text, whatever content
(`old`) was there before. -/
theorem C10_confirmed (root : String) (dir : List DirEntry)
    (fetch_yaml : String → Except String String)
    (bib_key title yaml_str old : String) :
    (files_with_metadata dir).find? (fun pm => pm.2.key == bib_key) = none →
    fetch_yaml bib_key = .ok yaml_str →
    read_at dir (note_path root title) = some old →
    create_notes_file root dir fetch_yaml bib_key title
      = (.ok (note_path root title),
         write_file dir (note_path root title) (note_header bib_key yaml_str)) ∧
    read_at (create_notes_file root dir fetch_yaml bib_key title).2
        (note_path root title) = some (note_header bib_key yaml_str) := by
  intro hdup hfetch _hold
  have hmain : create_notes_file root dir fetch_yaml bib_key title
      = (.ok (note_path root title),
         write_file dir (note_path root title) (note_header bib_key yaml_str)) := by
    simp [create_notes_file, hdup, hfetch]
  exact ⟨hmain, by rw [hmain]; exact read_at_write_file dir _ _⟩

/-- C10 witness: after a first note (key `k1`, title `a:b`) created
`notes/a-b.md`, a second call with the distinct key `k2` and title `a-b`
derives the same path and silently replaces that file. -/
theorem C10_confirmed_witness :
    create_notes_file "notes" dirC10 (fun _ => Except.ok "title: x\n") "k2" "a-b"
      = (.ok (note_path "notes" "a-b"),
         write_file dirC10 (note_path "notes" "a-b")
           (note_header "k2" "title: x\n")) :=
  (C10_confirmed "notes" dirC10 (fun _ => Except.ok "title: x\n") "k2" "a-b"
    "title: x\n" "---\nkey: k1\ntitle: x\n---\n" rfl rfl rfl).1
